import Mathlib

/-!
Verification development for the SignalSmith-Backtester front-end
request-compilation and result-artifact subsystem.

The definitions below are a shallow embedding of the TypeScript sources:
  - frontend/src/utils/download.ts        (createCSVContent)
  - frontend/src/utils/report.ts          (formatValue, buildSelectionRows)
  - frontend/src/components/SidebarForm.tsx (strategyPresets,
      handleStrategyChange, the max-horizon propagation effect, submit)
  - frontend/src/App.tsx and the report-capable App variant
      (download handlers, captureChart, escapeHtml, sectionTable,
       csvSection, handleDownloadReport)

Modelling conventions:
  - JavaScript numbers are modelled as rationals (exact arithmetic);
  - undefined is modelled as Option.none; where the code distinguishes
    undefined from null (the stop-loss / take-profit and market-cap
    checks) a three-valued type JNum is used;
  - a JS object field that may be entirely absent from the serialized
    payload is an Option field; a disabled indicator payload, which the
    code emits as the bare tagged object with its use flag off and no
    other fields, is Option.none on the corresponding block.
-/

/-- A loosely-typed JS numeric form field: undefined, null, or a number. -/
inductive JNum where
  | undef
  | null
  | num (q : ℚ)
deriving DecidableEq, Repr

/-- RSI mode enumeration from types.ts (type RSIMode = "oversold" | "overbought"). -/
inductive RSIMode where
  | oversold
  | overbought
deriving DecidableEq, Repr

/-- RSI rule record from types.ts. -/
structure RSIRule where
  mode : RSIMode
  threshold : ℚ
deriving DecidableEq, Repr

/-- Raw (pre-normalization) universe-filter values as stored in the form. -/
structure RawFilters where
  sectors : Option (List String)
  mcap_min : JNum
  mcap_max : JNum
  exclude_tickers : Option (List String)
deriving DecidableEq, Repr

/-- The empty filters object (the fallback for `values.filters || {}`). -/
def emptyRawFilters : RawFilters :=
  { sectors := none, mcap_min := JNum.undef, mcap_max := JNum.undef,
    exclude_tickers := none }

/-- Compiled Filters object from types.ts. -/
structure Filters where
  sectors : Option (List String)
  mcap_min : JNum
  mcap_max : JNum
  exclude_tickers : Option (List String)
deriving DecidableEq, Repr

/-- RSI block of the compiled indicators payload (the enabled variant;
the disabled variant carries no fields and is modelled as Option.none). -/
structure RSIBlock where
  n : Option ℚ
  rule : RSIMode
  oversold : Option ℚ
  overbought : Option ℚ
deriving DecidableEq, Repr

/-- MACD block of the compiled indicators payload (enabled variant). -/
structure MACDBlock where
  fast : Option ℚ
  slow : Option ℚ
  signal : Option ℚ
  rule : Option String
deriving DecidableEq, Repr

/-- OBV block of the compiled indicators payload (enabled variant). -/
structure OBVBlock where
  rule : Option String
deriving DecidableEq, Repr

/-- EMA block of the compiled indicators payload (enabled variant). -/
structure EMABlock where
  short : Option ℚ
  long : Option ℚ
deriving DecidableEq, Repr

/-- ADX block of the compiled indicators payload (enabled variant). -/
structure ADXBlock where
  n : Option ℚ
  min : Option ℚ
deriving DecidableEq, Repr

/-- Aroon block of the compiled indicators payload (enabled variant). -/
structure AroonBlock where
  n : Option ℚ
  up : Option ℚ
  down : Option ℚ
deriving DecidableEq, Repr

/-- Stochastic block of the compiled indicators payload (enabled variant). -/
structure StochBlock where
  k : Option ℚ
  d : Option ℚ
  rule : Option String
  threshold : Option ℚ
deriving DecidableEq, Repr

/-- Top-level indicators payload assembled by submit in SidebarForm.tsx. -/
structure IndicatorsPayload where
  policy : String
  atleast_k : Option ℚ
  max_horizon : Option ℚ
  hist_horizon : Option ℚ
  hold_days : Option ℚ
  stop_loss_pct : Option ℚ
  take_profit_pct : Option ℚ
  rsi : Option RSIBlock
  macd : Option MACDBlock
  obv : Option OBVBlock
  ema : Option EMABlock
  adx : Option ADXBlock
  aroon : Option AroonBlock
  stoch : Option StochBlock
deriving DecidableEq, Repr

/-- Compiled Backtest Request from types.ts. The source field named end is
renamed endDate because end is a Lean keyword. -/
structure BacktestRequest where
  strategy : String
  start : String
  endDate : String
  indicators : IndicatorsPayload
  rsi_rule : Option RSIRule
  filters : Option Filters
  capital : Option ℚ
  fee_bps : Option ℚ
  hold_days : Option ℚ
  stop_loss_pct : Option ℚ
  take_profit_pct : Option ℚ
deriving DecidableEq, Repr

/-- The form snapshot handed to submit. Dates carry their already-formatted
YYYY-MM-DD text (dayjs formatting is an external collaborator). The
watched enable flags are Option Bool because Form.useWatch may yield
undefined, which the component defaults with getD below exactly as the
source does with its null-coalescing defaults. -/
structure FormValues where
  strategy : String
  dateStart : String
  dateEnd : String
  capital : Option ℚ
  fee_bps : Option ℚ
  hold_days : Option ℚ
  stop_loss_pct : JNum
  take_profit_pct : JNum
  enable_rsi : Option Bool
  use_macd : Option Bool
  use_obv : Option Bool
  use_ema : Option Bool
  use_adx : Option Bool
  use_aroon : Option Bool
  use_stoch : Option Bool
  rsi_n : Option ℚ
  rsi_rule : RSIRule
  macd_fast : Option ℚ
  macd_slow : Option ℚ
  macd_signal : Option ℚ
  macd_rule : Option String
  obv_rule : Option String
  ema_short : Option ℚ
  ema_long : Option ℚ
  adx_n : Option ℚ
  adx_min : Option ℚ
  aroon_n : Option ℚ
  aroon_up : Option ℚ
  aroon_down : Option ℚ
  stoch_k : Option ℚ
  stoch_d : Option ℚ
  stoch_rule : Option String
  stoch_threshold : Option ℚ
  policy : String
  k : Option ℚ
  max_horizon : Option ℚ
  hist_horizon : Option ℚ
  filters : Option RawFilters
deriving DecidableEq, Repr

/-- Ticker-list normalization from submit: map toUpperCase then trim over
the entries, then drop entries that are falsy (the empty string). -/
def normalizeExclude (ts : List String) : List String :=
  (ts.map (fun t => t.toUpper.trim)).filter (fun t => t != "")

/-- The stop-loss / take-profit presence test from submit:
input !== undefined && input !== null picks out actual numbers. -/
def definedNum : JNum → Option ℚ
  | JNum.num q => some q
  | _ => none

/-- Truthiness of an optional string list, as in
filters.sectors && filters.sectors.length. -/
def listTruthy : Option (List String) → Bool
  | some l => !l.isEmpty
  | none => false

/-- The filters object built by submit from the raw form filters: the
sectors and market-cap values pass through, the exclude list is
normalized and kept only when non-empty. -/
def compiledFilters (baseFilters : RawFilters) : Filters :=
  let exclude := normalizeExclude (baseFilters.exclude_tickers.getD [])
  { sectors := baseFilters.sectors,
    mcap_min := baseFilters.mcap_min,
    mcap_max := baseFilters.mcap_max,
    exclude_tickers := if exclude.isEmpty then none else some exclude }

/-- The hasFilters test from submit: Boolean of the truthiness chain over
the four sub-filters (the market-cap checks compare against undefined
only, exactly as the source does). -/
def hasFilters (filters : Filters) : Bool :=
  listTruthy filters.sectors
    || !(filters.mcap_min == JNum.undef)
    || !(filters.mcap_max == JNum.undef)
    || listTruthy filters.exclude_tickers

/-- The submit transform of SidebarForm.tsx: form snapshot to compiled
Backtest Request. Follows the source line by line; the enable flags use
the same defaults as the Form.useWatch null-coalescing in the component
(enable_rsi defaults to true, every other use flag to false). -/
def submit (values : FormValues) : BacktestRequest :=
  let baseFilters := values.filters.getD emptyRawFilters
  let filters : Filters := compiledFilters baseFilters
  let stopLoss : Option ℚ := (definedNum values.stop_loss_pct).map (fun q => q / 100)
  let takeProfit : Option ℚ := (definedNum values.take_profit_pct).map (fun q => q / 100)
  let enableRsi := values.enable_rsi.getD true
  let useMacd := values.use_macd.getD false
  let useObv := values.use_obv.getD false
  let useEma := values.use_ema.getD false
  let useAdx := values.use_adx.getD false
  let useAroon := values.use_aroon.getD false
  let useStoch := values.use_stoch.getD false
  { strategy := values.strategy,
    start := values.dateStart,
    endDate := values.dateEnd,
    indicators :=
      { policy := values.policy,
        atleast_k := values.k,
        max_horizon := values.max_horizon,
        hist_horizon := values.hist_horizon,
        hold_days := values.hold_days,
        stop_loss_pct := stopLoss,
        take_profit_pct := takeProfit,
        rsi := if enableRsi then
            some { n := values.rsi_n,
                   rule := values.rsi_rule.mode,
                   oversold := if values.rsi_rule.mode = RSIMode.oversold
                     then some values.rsi_rule.threshold else none,
                   overbought := if values.rsi_rule.mode = RSIMode.overbought
                     then some values.rsi_rule.threshold else none }
          else none,
        macd := if useMacd then
            some { fast := values.macd_fast, slow := values.macd_slow,
                   signal := values.macd_signal, rule := values.macd_rule }
          else none,
        obv := if useObv then some { rule := values.obv_rule } else none,
        ema := if useEma then
            some { short := values.ema_short, long := values.ema_long }
          else none,
        adx := if useAdx then
            some { n := values.adx_n, min := values.adx_min }
          else none,
        aroon := if useAroon then
            some { n := values.aroon_n, up := values.aroon_up,
                   down := values.aroon_down }
          else none,
        stoch := if useStoch then
            some { k := values.stoch_k, d := values.stoch_d,
                   rule := values.stoch_rule,
                   threshold := values.stoch_threshold }
          else none },
    rsi_rule := if enableRsi then some values.rsi_rule else none,
    filters := if hasFilters filters then some filters else none,
    capital := values.capital,
    fee_bps := values.fee_bps,
    hold_days := values.hold_days,
    stop_loss_pct := stopLoss,
    take_profit_pct := takeProfit }

/-!
CSV artifact builder (frontend/src/utils/download.ts) and the response
data model (frontend/src/types.ts).
-/

/-- A CSV cell as handed to createCSVContent: the source arrays carry
strings and numbers and occasionally null/undefined entries. -/
inductive CSVCell where
  | nullv
  | str (s : String)
  | num (q : ℚ)
deriving DecidableEq, Repr

/-- The JS String(value) conversion for cells. The nullv case is reached
only behind the explicit null/undefined guards of the source, which all
substitute the empty string. -/
def stringOfCell : CSVCell → String
  | CSVCell.nullv => ""
  | CSVCell.str s => s
  | CSVCell.num q => toString q

/-- The regex test from createCSVContent: the field value contains a
comma, a double quote or a newline. -/
def needsQuote (s : String) : Bool :=
  s.toList.any (fun c => c = ',' || c = '"' || c = '\n')

/-- Global character replacement, used to model the global string-replace
calls of the source (each occurrence of c becomes the character list r). -/
def replaceChar (c : Char) (r : List Char) (s : String) : String :=
  String.mk (s.toList.flatMap (fun a => if a = c then r else [a]))

/-- The double-quote doubling from createCSVContent. -/
def escapeQuotes (s : String) : String :=
  replaceChar '"' ['"', '"'] s

/-- The non-null half of the field encoding from createCSVContent: a
stringified value containing a comma, quote or newline is wrapped in
double quotes with internal double quotes doubled. -/
def encodedField (str : String) : String :=
  if needsQuote str then "\"" ++ escapeQuotes str ++ "\"" else str

/-- Field encoding from createCSVContent: null/undefined becomes the empty
field; any other value is stringified and encoded. -/
def encodeCell : CSVCell → String
  | CSVCell.nullv => ""
  | CSVCell.str s => encodedField s
  | CSVCell.num q => encodedField (toString q)

/-- createCSVContent from download.ts: comma-joined header, newline-joined
comma-joined rows; the trailing newline branch mirrors the source ternary
on rows.length. -/
def createCSVContent (columns : List String) (rows : List (List CSVCell)) : String :=
  let header := String.intercalate "," columns
  let body := String.intercalate "\n"
    (rows.map (fun row => String.intercalate "," (row.map encodeCell)))
  if rows.isEmpty then header ++ "\n" else header ++ "\n" ++ body

/-- TimeSeries from types.ts. -/
structure TimeSeries where
  dates : List String
  values : List ℚ
deriving DecidableEq, Repr

/-- Signal from types.ts; the side is the literal "buy" or "sell" string. -/
structure Signal where
  date : String
  type : String
  price : ℚ
  size : Option ℚ
  symbol : Option String
deriving DecidableEq, Repr

/-- Trade from types.ts. -/
structure Trade where
  enter_date : String
  enter_price : ℚ
  exit_date : String
  exit_price : ℚ
  pnl : ℚ
  ret : ℚ
  symbol : Option String
deriving DecidableEq, Repr

/-- HistogramBucket from types.ts. -/
structure HistogramBucket where
  bin_start : ℚ
  bin_end : ℚ
  count : ℚ
deriving DecidableEq, Repr

/-- HistogramPayload from types.ts. -/
structure HistogramPayload where
  horizon : ℚ
  buckets : List HistogramBucket
  stats : List (String × ℚ)
  sample_size : ℚ
deriving DecidableEq, Repr

/-- BacktestResponse from types.ts. Record-typed fields (metrics,
indicator_statistics) are association lists in Object.entries order. -/
structure BacktestResponse where
  equity_curve : TimeSeries
  drawdown_curve : TimeSeries
  price_series : Option TimeSeries
  signals : Option (List Signal)
  trades : Option (List Trade)
  metrics : List (String × ℚ)
  histogram : Option HistogramPayload
  indicator_statistics : Option (List (String × List (String × ℚ)))
  universe_size : ℚ
  trades_count : ℚ
deriving DecidableEq, Repr

/-!
Selection-row builder (frontend/src/utils/report.ts).
-/

/-- A loosely-typed value of the raw form-selection mapping, as consumed by
formatValue (unknown in the source). Arrays appearing in the form are
string lists (sectors, exclude tickers). -/
inductive SVal where
  | undef
  | null
  | str (s : String)
  | num (q : ℚ)
  | bool (b : Bool)
  | arr (xs : List String)
deriving DecidableEq, Repr

/-- formatValue from report.ts: undefined, null and the empty string give
the em-dash sentinel; an empty array gives the sentinel and a non-empty
array joins with a comma and space; everything else stringifies. -/
def formatValue : SVal → String
  | SVal.undef => "—"
  | SVal.null => "—"
  | SVal.str "" => "—"
  | SVal.str s => s
  | SVal.arr [] => "—"
  | SVal.arr xs => String.intercalate ", " xs
  | SVal.num q => toString q
  | SVal.bool b => if b then "true" else "false"

/-- formatDate from report.ts. The Dayjs argument is modelled by its
formatted YYYY-MM-DD text; a present date object is always truthy. -/
def formatDate : Option String → String
  | some d => d
  | none => "—"

/-- formatBool from report.ts: truthy gives Enabled, otherwise Disabled. -/
def formatBool : Option Bool → String
  | some true => "Enabled"
  | _ => "Disabled"

/-- Raw filter values as read by buildSelectionRows. -/
structure SelFilters where
  sectors : Option (List String)
  mcap_min : SVal
  mcap_max : SVal
  exclude_tickers : Option (List String)
deriving DecidableEq, Repr

/-- The empty filters fallback for values.filters in buildSelectionRows. -/
def emptySelFilters : SelFilters :=
  { sectors := none, mcap_min := SVal.undef, mcap_max := SVal.undef,
    exclude_tickers := none }

/-- The raw form-selection mapping consumed by buildSelectionRows
(RawSelectionValues in the source). The date entry destructures into the
optional start and end Dayjs values, modelled by their formatted text. The
rsi_rule entry is optional because the source reads it with optional
chaining. -/
structure SelectionValues where
  strategy : SVal
  date : Option (Option String × Option String)
  capital : SVal
  fee_bps : SVal
  hold_days : SVal
  stop_loss_pct : SVal
  take_profit_pct : SVal
  filters : Option SelFilters
  enable_rsi : Option Bool
  rsi_n : SVal
  rsi_rule : Option (SVal × SVal)
  use_macd : Option Bool
  macd_fast : SVal
  macd_slow : SVal
  macd_signal : SVal
  macd_rule : SVal
  use_obv : Option Bool
  obv_rule : SVal
  use_ema : Option Bool
  ema_short : SVal
  ema_long : SVal
  use_adx : Option Bool
  adx_n : SVal
  adx_min : SVal
  use_aroon : Option Bool
  aroon_n : SVal
  aroon_up : SVal
  aroon_down : SVal
  use_stoch : Option Bool
  stoch_k : SVal
  stoch_d : SVal
  stoch_threshold : SVal
  stoch_rule : SVal
  policy : SVal
  k : SVal
  max_horizon : SVal
  hist_horizon : SVal
  hist_bins : SVal
deriving DecidableEq, Repr

/-- Optional-chaining access to the rsi_rule mode. -/
def selRsiMode (v : SelectionValues) : SVal :=
  match v.rsi_rule with
  | some r => r.1
  | none => SVal.undef

/-- Optional-chaining access to the rsi_rule threshold. -/
def selRsiThreshold (v : SelectionValues) : SVal :=
  match v.rsi_rule with
  | some r => r.2
  | none => SVal.undef

/-- buildSelectionRows from report.ts: the fixed 43-row
(section, label, value) summary of the form snapshot, in source order,
every value rendered through formatValue (dates and enable flags are
pre-rendered through formatDate / formatBool exactly as in the source). -/
def buildSelectionRows (values : SelectionValues) : List (String × String × String) :=
  let startEnd := values.date.getD (none, none)
  let filtersValues := values.filters.getD emptySelFilters
  [("Strategy", "Strategy", formatValue values.strategy),
   ("Strategy", "Start date", formatValue (SVal.str (formatDate startEnd.1))),
   ("Strategy", "End date", formatValue (SVal.str (formatDate startEnd.2))),
   ("Strategy", "Initial capital", formatValue values.capital),
   ("Strategy", "Fee (bps)", formatValue values.fee_bps),
   ("Strategy", "Hold days", formatValue values.hold_days),
   ("Strategy", "Stop loss (%)", formatValue values.stop_loss_pct),
   ("Strategy", "Take profit (%)", formatValue values.take_profit_pct),
   ("Universe Filters", "Sectors", formatValue (SVal.arr (filtersValues.sectors.getD []))),
   ("Universe Filters", "Market cap min", formatValue filtersValues.mcap_min),
   ("Universe Filters", "Market cap max", formatValue filtersValues.mcap_max),
   ("Universe Filters", "Exclude tickers", formatValue (SVal.arr (filtersValues.exclude_tickers.getD []))),
   ("RSI", "Enabled", formatValue (SVal.str (formatBool values.enable_rsi))),
   ("RSI", "Lookback", formatValue values.rsi_n),
   ("RSI", "Mode", formatValue (selRsiMode values)),
   ("RSI", "Threshold", formatValue (selRsiThreshold values)),
   ("MACD", "Enabled", formatValue (SVal.str (formatBool values.use_macd))),
   ("MACD", "Fast", formatValue values.macd_fast),
   ("MACD", "Slow", formatValue values.macd_slow),
   ("MACD", "Signal", formatValue values.macd_signal),
   ("MACD", "Rule", formatValue values.macd_rule),
   ("OBV", "Enabled", formatValue (SVal.str (formatBool values.use_obv))),
   ("OBV", "Rule", formatValue values.obv_rule),
   ("EMA", "Enabled", formatValue (SVal.str (formatBool values.use_ema))),
   ("EMA", "Short", formatValue values.ema_short),
   ("EMA", "Long", formatValue values.ema_long),
   ("ADX", "Enabled", formatValue (SVal.str (formatBool values.use_adx))),
   ("ADX", "Lookback", formatValue values.adx_n),
   ("ADX", "Min ADX", formatValue values.adx_min),
   ("Aroon", "Enabled", formatValue (SVal.str (formatBool values.use_aroon))),
   ("Aroon", "Lookback", formatValue values.aroon_n),
   ("Aroon", "Aroon up", formatValue values.aroon_up),
   ("Aroon", "Aroon down", formatValue values.aroon_down),
   ("Stochastic", "Enabled", formatValue (SVal.str (formatBool values.use_stoch))),
   ("Stochastic", "%K", formatValue values.stoch_k),
   ("Stochastic", "%D", formatValue values.stoch_d),
   ("Stochastic", "Threshold", formatValue values.stoch_threshold),
   ("Stochastic", "Rule", formatValue values.stoch_rule),
   ("Signal Rules", "Policy", formatValue values.policy),
   ("Signal Rules", "k",
     formatValue (if values.policy = SVal.str "atleast_k" then values.k else SVal.str "—")),
   ("Signal Rules", "Max horizon", formatValue values.max_horizon),
   ("Signal Rules", "Histogram horizon", formatValue values.hist_horizon),
   ("Signal Rules", "Histogram bins", formatValue values.hist_bins)]

/-!
Preset Resolver and Constraint Propagator (SidebarForm.tsx).
-/

/-- A strategy preset: the partial field map merged into the form by
form.setFieldsValue. A none entry means the preset does not mention the
field. -/
structure Preset where
  enable_rsi : Option Bool := none
  use_macd : Option Bool := none
  use_obv : Option Bool := none
  use_ema : Option Bool := none
  use_adx : Option Bool := none
  use_aroon : Option Bool := none
  use_stoch : Option Bool := none
  rsi_rule : Option RSIRule := none
  stoch_rule : Option String := none
  stoch_threshold : Option ℚ := none
deriving DecidableEq, Repr

/-- strategyPresets from SidebarForm.tsx, as the lookup
strategyPresets[value] (none for an identifier outside the map). -/
def strategyPresets (value : String) : Option Preset :=
  if value = "mean_reversion" then
    some { enable_rsi := some true, use_macd := some false,
           use_obv := some false, use_ema := some true,
           use_adx := some false, use_aroon := some false,
           use_stoch := some false,
           rsi_rule := some { mode := RSIMode.oversold, threshold := 30 } }
  else if value = "momentum" then
    some { enable_rsi := some false, use_macd := some true,
           use_obv := some true, use_ema := some true,
           use_adx := some true, use_aroon := some false,
           use_stoch := some true, stoch_rule := some "signal",
           stoch_threshold := some 20 }
  else if value = "multifactor" then
    some { enable_rsi := some true, use_macd := some true,
           use_obv := some true, use_ema := some true,
           use_adx := some true, use_aroon := some true,
           use_stoch := some true }
  else none

/-- form.setFieldsValue restricted to the fields a preset can mention:
each field present in the preset overwrites the form value, every other
field is untouched. -/
def setFieldsValue (p : Preset) (s : FormValues) : FormValues :=
  { s with
    enable_rsi := match p.enable_rsi with
      | some b => some b
      | none => s.enable_rsi,
    use_macd := match p.use_macd with
      | some b => some b
      | none => s.use_macd,
    use_obv := match p.use_obv with
      | some b => some b
      | none => s.use_obv,
    use_ema := match p.use_ema with
      | some b => some b
      | none => s.use_ema,
    use_adx := match p.use_adx with
      | some b => some b
      | none => s.use_adx,
    use_aroon := match p.use_aroon with
      | some b => some b
      | none => s.use_aroon,
    use_stoch := match p.use_stoch with
      | some b => some b
      | none => s.use_stoch,
    rsi_rule := match p.rsi_rule with
      | some r => r
      | none => s.rsi_rule,
    stoch_rule := match p.stoch_rule with
      | some r => some r
      | none => s.stoch_rule,
    stoch_threshold := match p.stoch_threshold with
      | some t => some t
      | none => s.stoch_threshold }

/-- handleStrategyChange from SidebarForm.tsx: look the identifier up in
the preset map and merge the preset when found; otherwise do nothing. -/
def handleStrategyChange (value : String) (s : FormValues) : FormValues :=
  match strategyPresets value with
  | some preset => setFieldsValue preset s
  | none => s

/-- One clamp step of the max-horizon effect: a truthy current value
strictly above the maximum is written back as the maximum, anything else
is untouched (the guard current && current > maxHorizon of the source). -/
def clampField (maxHorizon : ℚ) : Option ℚ → Option ℚ
  | some h => if h ≠ 0 ∧ maxHorizon < h then some maxHorizon else some h
  | none => none

/-- The max-horizon propagation effect from SidebarForm.tsx: when the
watched max_horizon field is truthy, any truthy hold_days or hist_horizon
strictly above it is clamped down to it; everything else is untouched. -/
def propagateMaxHorizon (v : FormValues) : FormValues :=
  match v.max_horizon with
  | none => v
  | some maxHorizon =>
    if maxHorizon = 0 then v
    else
      { v with
        hold_days := clampField maxHorizon v.hold_days,
        hist_horizon := clampField maxHorizon v.hist_horizon }

/-!
Export entry points and report assembly (App.tsx and the report-capable
App variant in the sources).
-/

/-- A live chart collaborator reference as the capture step sees it:
absent (ref still null), rendering but failing to produce an image
(getDataURL throws), or ready with an image payload. -/
inductive ChartRef where
  | absent
  | failing
  | ready (img : String)
deriving DecidableEq, Repr

/-- captureChart from handleDownloadReport: a null chart gives null, a
throwing getDataURL is caught (logged) and gives null, otherwise the
image data URL is returned. -/
def captureChart : ChartRef → Option String
  | ChartRef.absent => none
  | ChartRef.failing => none
  | ChartRef.ready img => some img

/-- escapeHtml from handleDownloadReport: globally replace ampersands,
then left angle brackets, then right angle brackets. -/
def escapeHtml (s : String) : String :=
  replaceChar '>' ['&', 'g', 't', ';']
    (replaceChar '<' ['&', 'l', 't', ';']
      (replaceChar '&' ['&', 'a', 'm', 'p', ';'] s))

/-- sectionTable from handleDownloadReport: an empty row list yields the
no-data paragraph, otherwise an HTML table; each cell goes through the
null-coalescing empty-string fallback, stringification and HTML escaping
of the source. -/
def sectionTable (rows : List (List CSVCell)) (headers : List String) : String :=
  if rows.isEmpty then "<p>No data available.</p>"
  else
    let headerCells := String.join (headers.map (fun h => "<th>" ++ escapeHtml h ++ "</th>"))
    let bodyRows := String.join (rows.map (fun row =>
      "<tr>" ++ String.join (row.map (fun cell =>
        "<td>" ++ escapeHtml (stringOfCell cell) ++ "</td>")) ++ "</tr>"))
    "<table><thead><tr>" ++ headerCells ++ "</tr></thead><tbody>" ++ bodyRows
      ++ "</tbody></table>"

/-- csvSection from handleDownloadReport: a missing or empty CSV text is
falsy and yields the empty string, otherwise the collapsible details
block of the source template literal (whitespace preserved). -/
def csvSection (title : String) (csv : Option String) : String :=
  match csv with
  | none => ""
  | some c =>
    if c = "" then ""
    else
      "\n        <details open>\n          <summary>" ++ escapeHtml title
        ++ "</summary>\n          <pre>" ++ escapeHtml c
        ++ "</pre>\n        </details>\n      "

/-- Row derivation for the equity and drawdown curves: dates mapped with
their index against the parallel values array; a missing parallel value
is undefined and lands as a null cell. -/
def curveRows (curve : TimeSeries) : List (List CSVCell) :=
  curve.dates.enum.map (fun p =>
    [CSVCell.str p.2, (curve.values.get? p.1).elim CSVCell.nullv CSVCell.num])

/-- Row derivation for signals, with the empty-string fallbacks of the
source on price, size and symbol. -/
def signalRowsOf (signals : List Signal) : List (List CSVCell) :=
  signals.map (fun s =>
    [CSVCell.str s.date, CSVCell.str s.type, CSVCell.num s.price,
     s.size.elim (CSVCell.str "") CSVCell.num,
     s.symbol.elim (CSVCell.str "") CSVCell.str])

/-- Row derivation for trades, with the empty-string fallback on symbol. -/
def tradeRowsOf (trades : List Trade) : List (List CSVCell) :=
  trades.map (fun t =>
    [t.symbol.elim (CSVCell.str "") CSVCell.str,
     CSVCell.str t.enter_date, CSVCell.num t.enter_price,
     CSVCell.str t.exit_date, CSVCell.num t.exit_price,
     CSVCell.num t.pnl, CSVCell.num t.ret])

/-- Row derivation for the metrics mapping. -/
def metricsRowsOf (metrics : List (String × ℚ)) : List (List CSVCell) :=
  metrics.map (fun p => [CSVCell.str p.1, CSVCell.num p.2])

/-- Row derivation for the histogram buckets. -/
def histogramRowsOf (buckets : List HistogramBucket) : List (List CSVCell) :=
  buckets.map (fun b => [CSVCell.num b.bin_start, CSVCell.num b.bin_end, CSVCell.num b.count])

/-- Row derivation for the nested indicator-statistics mapping, flattened
into one (horizon, metric, value) row per leaf. -/
def indicatorRowsOf (stats : List (String × List (String × ℚ))) : List (List CSVCell) :=
  stats.flatMap (fun h =>
    h.2.map (fun m => [CSVCell.str h.1, CSVCell.str m.1, CSVCell.num m.2]))

/-- The composed report document of handleDownloadReport: the timestamp
line, the parameter-summary and metrics HTML fragments, the four optional
captured chart images, the six CSV snapshot blocks, and the embedded raw
request/response payloads (serialized by the external JSON collaborator). -/
structure ReportDoc where
  timestamp : String
  parameterSummary : String
  metricsSection : String
  equityImage : Option String
  drawdownImage : Option String
  signalImage : Option String
  histogramImage : Option String
  dataSnapshots : List String
  rawRequest : Option BacktestRequest
  rawResponse : BacktestResponse
deriving DecidableEq, Repr

/-- The observable outcome of an export entry point: an early return (with
or without a user-facing warning), a CSV file download, a JSON download,
or a composed report download. -/
inductive ExportAction where
  | noop (warned : Bool)
  | csv (filename : String) (columns : List String) (rows : List (List CSVCell))
  | json (filename : String) (response : BacktestResponse)
  | report (doc : ReportDoc)
deriving DecidableEq, Repr

/-- handleDownloadEquity from App.tsx: an early silent return when no
response exists, otherwise the equity-curve CSV download. -/
def handleDownloadEquity (response : Option BacktestResponse) : ExportAction :=
  match response with
  | none => ExportAction.noop false
  | some r =>
    ExportAction.csv "equity_curve.csv" ["date", "value"] (curveRows r.equity_curve)

/-- handleDownloadDrawdown from App.tsx. -/
def handleDownloadDrawdown (response : Option BacktestResponse) : ExportAction :=
  match response with
  | none => ExportAction.noop false
  | some r =>
    ExportAction.csv "drawdown_curve.csv" ["date", "value"] (curveRows r.drawdown_curve)

/-- handleDownloadSignals from App.tsx: the early return also fires when
the signals list is missing or empty. -/
def handleDownloadSignals (response : Option BacktestResponse) : ExportAction :=
  match response with
  | none => ExportAction.noop false
  | some r =>
    if (r.signals.getD []).isEmpty then ExportAction.noop false
    else
      ExportAction.csv "signals.csv" ["date", "type", "price", "size", "symbol"]
        (signalRowsOf (r.signals.getD []))

/-- handleDownloadMetrics from App.tsx. -/
def handleDownloadMetrics (response : Option BacktestResponse) : ExportAction :=
  match response with
  | none => ExportAction.noop false
  | some r =>
    ExportAction.csv "metrics.csv" ["metric", "value"] (metricsRowsOf r.metrics)

/-- handleDownloadTrades from App.tsx: the early return also fires when
the trades list is missing or empty. -/
def handleDownloadTrades (response : Option BacktestResponse) : ExportAction :=
  match response with
  | none => ExportAction.noop false
  | some r =>
    if (r.trades.getD []).isEmpty then ExportAction.noop false
    else
      ExportAction.csv "trades.csv"
        ["symbol", "enter_date", "enter_price", "exit_date", "exit_price", "pnl", "ret"]
        (tradeRowsOf (r.trades.getD []))

/-- handleDownloadSummary from App.tsx: the whole response as a JSON
download. -/
def handleDownloadSummary (response : Option BacktestResponse) : ExportAction :=
  match response with
  | none => ExportAction.noop false
  | some r => ExportAction.json "backtest_summary.json" r

/-- handleDownloadHistogram from App.tsx: the optional-chaining guard
fires when either the response or its histogram is missing. -/
def handleDownloadHistogram (response : Option BacktestResponse) : ExportAction :=
  match response with
  | none => ExportAction.noop false
  | some r =>
    match r.histogram with
    | none => ExportAction.noop false
    | some h =>
      ExportAction.csv "histogram.csv" ["bin_start", "bin_end", "count"]
        (histogramRowsOf h.buckets)

/-- handleDownloadIndicatorStats from App.tsx. -/
def handleDownloadIndicatorStats (response : Option BacktestResponse) : ExportAction :=
  match response with
  | none => ExportAction.noop false
  | some r =>
    match r.indicator_statistics with
    | none => ExportAction.noop false
    | some stats =>
      ExportAction.csv "indicator_statistics.csv" ["horizon", "metric", "value"]
        (indicatorRowsOf stats)

/-- handleDownloadReport from the report-capable App variant: rejected
upfront with a user-facing warning when no response exists; otherwise the
report document is composed from the selection rows, the section tables,
the chart captures, the CSV snapshot blocks and the raw payloads, and
downloaded. The timestamp comes from the clock collaborator. -/
def handleDownloadReport (response : Option BacktestResponse)
    (lastRunConfig : Option BacktestRequest)
    (lastFormValues : Option SelectionValues)
    (equityRef drawdownRef signalRef histogramRef : ChartRef)
    (timestamp : String) : ExportAction :=
  match response with
  | none => ExportAction.noop true
  | some response =>
    let selectionRows := match lastFormValues with
      | some v => buildSelectionRows v
      | none => []
    let metricsRows := response.metrics
    let equityCurve := response.equity_curve
    let drawdownCurve := response.drawdown_curve
    let signalRows := signalRowsOf (response.signals.getD [])
    let tradeRows := tradeRowsOf (response.trades.getD [])
    let histogramRows := match response.histogram with
      | some h => histogramRowsOf h.buckets
      | none => []
    let indicatorRows := match response.indicator_statistics with
      | some stats => indicatorRowsOf stats
      | none => []
    let equityCsv : Option String :=
      if equityCurve.dates.isEmpty then none
      else some (createCSVContent ["date", "value"] (curveRows equityCurve))
    let drawdownCsv : Option String :=
      if drawdownCurve.dates.isEmpty then none
      else some (createCSVContent ["date", "value"] (curveRows drawdownCurve))
    let signalsCsv :=
      createCSVContent ["date", "type", "price", "size", "symbol"] signalRows
    let tradesCsv :=
      createCSVContent
        ["symbol", "enter_date", "enter_price", "exit_date", "exit_price", "pnl", "ret"]
        tradeRows
    let histogramCsv : Option String :=
      if histogramRows.isEmpty then none
      else some (createCSVContent ["bin_start", "bin_end", "count"] histogramRows)
    let indicatorCsv : Option String :=
      if indicatorRows.isEmpty then none
      else some (createCSVContent ["horizon", "metric", "value"] indicatorRows)
    let equityImage := captureChart equityRef
    let drawdownImage := captureChart drawdownRef
    let signalImage := captureChart signalRef
    let histogramImage := captureChart histogramRef
    ExportAction.report
      { timestamp := timestamp,
        parameterSummary :=
          if selectionRows.isEmpty then "<p>No parameter selections recorded.</p>"
          else
            sectionTable
              (selectionRows.map (fun r =>
                [CSVCell.str r.1, CSVCell.str r.2.1, CSVCell.str r.2.2]))
              ["Section", "Parameter", "Value"],
        metricsSection :=
          if metricsRows.isEmpty then "<p>No metrics available.</p>"
          else sectionTable (metricsRowsOf metricsRows) ["Metric", "Value"],
        equityImage := equityImage,
        drawdownImage := drawdownImage,
        signalImage := signalImage,
        histogramImage := histogramImage,
        dataSnapshots :=
          [csvSection "Equity Curve (CSV)" equityCsv,
           csvSection "Drawdown (CSV)" drawdownCsv,
           csvSection "Signals (CSV)" (some signalsCsv),
           csvSection "Trades (CSV)" (some tradesCsv),
           csvSection "Histogram (CSV)" histogramCsv,
           csvSection "Indicator Statistics (CSV)" indicatorCsv],
        rawRequest := lastRunConfig,
        rawResponse := response }

/-- The report side of the zero-trades scenario: the trades CSV text block
of handleDownloadReport, built unconditionally from the trades rows. -/
def tradesCsvOf (response : BacktestResponse) : String :=
  createCSVContent
    ["symbol", "enter_date", "enter_price", "exit_date", "exit_price", "pnl", "ret"]
    (tradeRowsOf (response.trades.getD []))

/-- Boolean substring occurrence on character lists, used to state that a
rendered fragment does or does not contain a given text. -/
def subOccurs (pat : List Char) : List Char → Bool
  | [] => pat.isEmpty
  | c :: rest => pat.isPrefixOf (c :: rest) || subOccurs pat rest

/-- An export entry point that returned early without doing any work. -/
def isNoop : ExportAction → Bool
  | ExportAction.noop _ => true
  | _ => false

/-- Whether an export outcome carried a user-facing warning. -/
def warned : ExportAction → Bool
  | ExportAction.noop w => w
  | _ => false

/-- The report document of a report outcome, when there is one. -/
def reportDocOf : ExportAction → Option ReportDoc
  | ExportAction.report doc => some doc
  | _ => none

/-!
Concrete fixtures used by witnesses and counterexamples.
-/

/-- A concrete form snapshot mirroring the initialValues of SidebarForm
(dates carry sample formatted values for the default range). -/
def defaultFormValues : FormValues :=
  { strategy := "mean_reversion", dateStart := "2024-10-11", dateEnd := "2025-10-11",
    capital := some 100000, fee_bps := some 1, hold_days := some 1,
    stop_loss_pct := JNum.undef, take_profit_pct := JNum.undef,
    enable_rsi := some true, use_macd := some false, use_obv := some false,
    use_ema := some true, use_adx := some false, use_aroon := some false,
    use_stoch := some false, rsi_n := some 14,
    rsi_rule := { mode := RSIMode.oversold, threshold := 30 },
    macd_fast := some 12, macd_slow := some 26, macd_signal := some 9,
    macd_rule := some "signal", obv_rule := some "rise",
    ema_short := some 12, ema_long := some 26, adx_n := some 14, adx_min := some 20,
    aroon_n := some 25, aroon_up := some 70, aroon_down := some 30,
    stoch_k := some 14, stoch_d := some 3, stoch_rule := some "signal",
    stoch_threshold := some 20, policy := "any", k := some 2,
    max_horizon := some 10, hist_horizon := some 1,
    filters := some emptyRawFilters }

/-- A concrete response whose trades list is present but empty, with no
optional sections and empty curves. -/
def zeroTradesResponse : BacktestResponse :=
  { equity_curve := { dates := [], values := [] },
    drawdown_curve := { dates := [], values := [] },
    price_series := none, signals := none, trades := some [],
    metrics := [], histogram := none, indicator_statistics := none,
    universe_size := 10, trades_count := 0 }

/-- Whether a string ends in a newline character. -/
def endsWithNewline (s : String) : Bool :=
  s.toList.getLast? == some '\n'

/-!
Helper lemmas on the clamp step of the Constraint Propagator.
-/

/-- A clamp step with a positive maximum only produces values at most the
maximum. -/
theorem clampField_le {H : ℚ} (hH : 0 < H) (o : Option ℚ) :
    ∀ h, clampField H o = some h → h ≤ H := by
  intro h hc
  cases o with
  | none => simp [clampField] at hc
  | some h0 =>
    by_cases hcond : h0 ≠ 0 ∧ H < h0
    · rw [clampField, if_pos hcond] at hc
      exact le_of_eq (Option.some.inj hc).symm
    · rw [clampField, if_neg hcond] at hc
      rcases Option.some.inj hc with rfl
      rcases not_and_or.mp hcond with h1 | h2
      · rw [not_not.mp h1]
        exact le_of_lt hH
      · exact le_of_not_lt h2

/-- A clamp step leaves a value already within the bound unchanged. -/
theorem clampField_within {H h : ℚ} (hle : h ≤ H) :
    clampField H (some h) = some h := by
  rw [clampField, if_neg]
  intro hcond
  exact absurd hle (not_le_of_lt hcond.2)

/-- The clamp step is idempotent. -/
theorem clampField_idem (H : ℚ) (o : Option ℚ) :
    clampField H (clampField H o) = clampField H o := by
  cases o with
  | none => rfl
  | some h0 =>
    by_cases hcond : h0 ≠ 0 ∧ H < h0
    · rw [clampField, if_pos hcond, clampField, if_neg]
      intro hcond2
      exact absurd hcond2.2 (lt_irrefl H)
    · rw [clampField, if_neg hcond, clampField, if_neg hcond]

/-- C4: after a change of the max-horizon field to a positive value H (the
UI restricts the field to 1..10), the propagation pass leaves hold_days
and hist_horizon at most H, leaves a field already within the bound
unchanged, and is idempotent for the same H. -/
theorem propagateMaxHorizon_bounds (v : FormValues) (H : ℚ) (hH : 0 < H)
    (hmax : v.max_horizon = some H) :
    (∀ h, (propagateMaxHorizon v).hold_days = some h → h ≤ H) ∧
    (∀ h, (propagateMaxHorizon v).hist_horizon = some h → h ≤ H) ∧
    (∀ h, v.hold_days = some h → h ≤ H → (propagateMaxHorizon v).hold_days = some h) ∧
    (∀ h, v.hist_horizon = some h → h ≤ H →
      (propagateMaxHorizon v).hist_horizon = some h) ∧
    propagateMaxHorizon (propagateMaxHorizon v) = propagateMaxHorizon v := by
  have hne : H ≠ 0 := ne_of_gt hH
  have key : propagateMaxHorizon v =
      { v with hold_days := clampField H v.hold_days,
               hist_horizon := clampField H v.hist_horizon } := by
    rw [propagateMaxHorizon]
    rw [hmax]
    simp [hne]
  have hmax2 : (propagateMaxHorizon v).max_horizon = some H := by
    rw [key]
    exact hmax
  have key2 : propagateMaxHorizon (propagateMaxHorizon v) =
      { propagateMaxHorizon v with
          hold_days := clampField H (propagateMaxHorizon v).hold_days,
          hist_horizon := clampField H (propagateMaxHorizon v).hist_horizon } := by
    rw [propagateMaxHorizon, hmax2]
    simp [hne]
    exact hmax2.symm
  refine ⟨?_, ?_, ?_, ?_, ?_⟩
  · intro h hc
    rw [key] at hc
    exact clampField_le hH v.hold_days h hc
  · intro h hc
    rw [key] at hc
    exact clampField_le hH v.hist_horizon h hc
  · intro h hv hle
    rw [key]
    show clampField H v.hold_days = some h
    rw [hv]
    exact clampField_within hle
  · intro h hv hle
    rw [key]
    show clampField H v.hist_horizon = some h
    rw [hv]
    exact clampField_within hle
  · rw [key2]
    conv_lhs => rw [key]
    conv_rhs => rw [key]
    show ({ v with
        hold_days := clampField H (clampField H v.hold_days),
        hist_horizon := clampField H (clampField H v.hist_horizon) } : FormValues) = _
    rw [clampField_idem, clampField_idem]

/-- Witness for C4 at the spec scenario: max horizon 5 with hold_days 8
and hist_horizon 3 clamps hold_days to 5, keeps hist_horizon at 3, and a
second pass changes nothing. -/
theorem propagateMaxHorizon_bounds_witness :
    (propagateMaxHorizon { defaultFormValues with
        max_horizon := some 5, hold_days := some 8, hist_horizon := some 3 }).hold_days
        = some 5 ∧
    (propagateMaxHorizon { defaultFormValues with
        max_horizon := some 5, hold_days := some 8, hist_horizon := some 3 }).hist_horizon
        = some 3 ∧
    propagateMaxHorizon (propagateMaxHorizon { defaultFormValues with
        max_horizon := some 5, hold_days := some 8, hist_horizon := some 3 })
      = propagateMaxHorizon { defaultFormValues with
        max_horizon := some 5, hold_days := some 8, hist_horizon := some 3 } := by
  have h := propagateMaxHorizon_bounds
    { defaultFormValues with
        max_horizon := some 5, hold_days := some 8, hist_horizon := some 3 }
    5 (by norm_num) rfl
  refine ⟨?_, h.2.2.2.1 3 rfl (by norm_num), h.2.2.2.2⟩
  decide

/-- C2: a numeric stop-loss or take-profit UI value v compiles to exactly
v / 100 in the corresponding request field, and an unset (undefined or
null) UI value leaves the field entirely absent from the request. -/
theorem stop_take_profit_conversion (values : FormValues) (q : ℚ) :
    (values.stop_loss_pct = JNum.num q →
      (submit values).stop_loss_pct = some (q / 100)) ∧
    (values.stop_loss_pct = JNum.undef ∨ values.stop_loss_pct = JNum.null →
      (submit values).stop_loss_pct = none) ∧
    (values.take_profit_pct = JNum.num q →
      (submit values).take_profit_pct = some (q / 100)) ∧
    (values.take_profit_pct = JNum.undef ∨ values.take_profit_pct = JNum.null →
      (submit values).take_profit_pct = none) := by
  have hs : (submit values).stop_loss_pct
      = (definedNum values.stop_loss_pct).map (fun x => x / 100) := rfl
  have ht : (submit values).take_profit_pct
      = (definedNum values.take_profit_pct).map (fun x => x / 100) := rfl
  refine ⟨fun h => ?_, fun h => ?_, fun h => ?_, fun h => ?_⟩
  · rw [hs, h]
    rfl
  · rcases h with h | h <;> rw [hs, h] <;> rfl
  · rw [ht, h]
    rfl
  · rcases h with h | h <;> rw [ht, h] <;> rfl

/-- Witness for C2 at a concrete snapshot with stop-loss 7 and an unset
take-profit. -/
theorem stop_take_profit_conversion_witness :
    (submit { defaultFormValues with stop_loss_pct := JNum.num 7 }).stop_loss_pct
      = some (7 / 100) ∧
    (submit { defaultFormValues with stop_loss_pct := JNum.num 7 }).take_profit_pct
      = none :=
  ⟨(stop_take_profit_conversion { defaultFormValues with stop_loss_pct := JNum.num 7 } 7).1
      rfl,
   (stop_take_profit_conversion { defaultFormValues with stop_loss_pct := JNum.num 7 } 7).2.2.2
      (Or.inl rfl)⟩

/-- C5: in a compiled request with RSI enabled, the oversold field holds
the configured threshold exactly when the selected mode is oversold, the
overbought field holds it exactly when the mode is overbought, and
exactly one of the two fields is present. -/
theorem rsi_mode_routing (values : FormValues) (b : RSIBlock)
    (hb : (submit values).indicators.rsi = some b) :
    (values.rsi_rule.mode = RSIMode.oversold →
      b.oversold = some values.rsi_rule.threshold ∧ b.overbought = none) ∧
    (values.rsi_rule.mode = RSIMode.overbought →
      b.overbought = some values.rsi_rule.threshold ∧ b.oversold = none) ∧
    b.oversold.isSome = !b.overbought.isSome := by
  have hr : (submit values).indicators.rsi
      = (if values.enable_rsi.getD true then
          some { n := values.rsi_n,
                 rule := values.rsi_rule.mode,
                 oversold := if values.rsi_rule.mode = RSIMode.oversold
                   then some values.rsi_rule.threshold else none,
                 overbought := if values.rsi_rule.mode = RSIMode.overbought
                   then some values.rsi_rule.threshold else none }
         else none) := rfl
  rw [hr] at hb
  cases he : values.enable_rsi.getD true with
  | false =>
    rw [he] at hb
    simp at hb
  | true =>
    rw [he] at hb
    simp only [if_pos] at hb
    rcases Option.some.inj hb with rfl
    cases hm : values.rsi_rule.mode with
    | oversold => simp [hm]
    | overbought => simp [hm]

/-- A concrete snapshot with RSI enabled in overbought mode at threshold
70, used by the C5 witness. -/
def overboughtFormValues : FormValues :=
  { defaultFormValues with
      rsi_rule := { mode := RSIMode.overbought, threshold := 70 } }

/-- Witness for C5 at the overbought snapshot: the compiled RSI block
carries the threshold in overbought and leaves oversold absent. -/
theorem rsi_mode_routing_witness :
    ({ n := some 14, rule := RSIMode.overbought, oversold := none,
       overbought := some 70 } : RSIBlock).overbought = some 70 ∧
    ({ n := some 14, rule := RSIMode.overbought, oversold := none,
       overbought := some 70 } : RSIBlock).oversold = none := by
  have h := rsi_mode_routing overboughtFormValues
    { n := some 14, rule := RSIMode.overbought, oversold := none, overbought := some 70 }
    rfl
  exact h.2.1 rfl

/-- C9: selecting the momentum preset sets the documented enable flags and
stochastic parameters, leaves every field outside the preset map (in
particular capital) unchanged, and an identifier outside the preset map is
a no-op. -/
theorem momentum_preset_effect (s : FormValues) (name : String)
    (hname : strategyPresets name = none) :
    ((handleStrategyChange "momentum" s).use_macd = some true ∧
     (handleStrategyChange "momentum" s).use_obv = some true ∧
     (handleStrategyChange "momentum" s).use_ema = some true ∧
     (handleStrategyChange "momentum" s).use_adx = some true ∧
     (handleStrategyChange "momentum" s).use_stoch = some true ∧
     (handleStrategyChange "momentum" s).stoch_rule = some "signal" ∧
     (handleStrategyChange "momentum" s).stoch_threshold = some 20 ∧
     (handleStrategyChange "momentum" s).enable_rsi = some false) ∧
    ((handleStrategyChange "momentum" s).capital = s.capital ∧
     (handleStrategyChange "momentum" s).strategy = s.strategy ∧
     (handleStrategyChange "momentum" s).dateStart = s.dateStart ∧
     (handleStrategyChange "momentum" s).dateEnd = s.dateEnd ∧
     (handleStrategyChange "momentum" s).fee_bps = s.fee_bps ∧
     (handleStrategyChange "momentum" s).hold_days = s.hold_days ∧
     (handleStrategyChange "momentum" s).stop_loss_pct = s.stop_loss_pct ∧
     (handleStrategyChange "momentum" s).take_profit_pct = s.take_profit_pct ∧
     (handleStrategyChange "momentum" s).rsi_n = s.rsi_n ∧
     (handleStrategyChange "momentum" s).rsi_rule = s.rsi_rule ∧
     (handleStrategyChange "momentum" s).macd_fast = s.macd_fast ∧
     (handleStrategyChange "momentum" s).macd_slow = s.macd_slow ∧
     (handleStrategyChange "momentum" s).macd_signal = s.macd_signal ∧
     (handleStrategyChange "momentum" s).macd_rule = s.macd_rule ∧
     (handleStrategyChange "momentum" s).obv_rule = s.obv_rule ∧
     (handleStrategyChange "momentum" s).ema_short = s.ema_short ∧
     (handleStrategyChange "momentum" s).ema_long = s.ema_long ∧
     (handleStrategyChange "momentum" s).adx_n = s.adx_n ∧
     (handleStrategyChange "momentum" s).adx_min = s.adx_min ∧
     (handleStrategyChange "momentum" s).aroon_n = s.aroon_n ∧
     (handleStrategyChange "momentum" s).aroon_up = s.aroon_up ∧
     (handleStrategyChange "momentum" s).aroon_down = s.aroon_down ∧
     (handleStrategyChange "momentum" s).stoch_k = s.stoch_k ∧
     (handleStrategyChange "momentum" s).stoch_d = s.stoch_d ∧
     (handleStrategyChange "momentum" s).policy = s.policy ∧
     (handleStrategyChange "momentum" s).k = s.k ∧
     (handleStrategyChange "momentum" s).max_horizon = s.max_horizon ∧
     (handleStrategyChange "momentum" s).hist_horizon = s.hist_horizon ∧
     (handleStrategyChange "momentum" s).filters = s.filters) ∧
    handleStrategyChange name s = s := by
  refine ⟨⟨rfl, rfl, rfl, rfl, rfl, rfl, rfl, rfl⟩,
    ⟨rfl, rfl, rfl, rfl, rfl, rfl, rfl, rfl, rfl, rfl, rfl, rfl, rfl, rfl, rfl,
     rfl, rfl, rfl, rfl, rfl, rfl, rfl, rfl, rfl, rfl, rfl, rfl, rfl, rfl⟩, ?_⟩
  rw [handleStrategyChange, hname]

/-- Witness for C9: the momentum preset flips use_macd at the default
snapshot while keeping capital, and the unknown identifier breakout is a
no-op. -/
theorem momentum_preset_effect_witness :
    (handleStrategyChange "momentum" defaultFormValues).use_macd = some true ∧
    (handleStrategyChange "momentum" defaultFormValues).capital
      = defaultFormValues.capital ∧
    handleStrategyChange "breakout" defaultFormValues = defaultFormValues :=
  ⟨(momentum_preset_effect defaultFormValues "breakout" rfl).1.1,
   (momentum_preset_effect defaultFormValues "breakout" rfl).2.1.1,
   (momentum_preset_effect defaultFormValues "breakout" rfl).2.2⟩

/-- The hasFilters Boolean agrees with the spec-level disjunction over the
raw form filters (set meaning distinct from undefined, exactly the test
the compiler performs). -/
theorem hasFilters_iff (bf : RawFilters) :
    hasFilters (compiledFilters bf) = true ↔
      ((∃ l, bf.sectors = some l ∧ l ≠ []) ∨
        bf.mcap_min ≠ JNum.undef ∨
        bf.mcap_max ≠ JNum.undef ∨
        normalizeExclude (bf.exclude_tickers.getD []) ≠ []) := by
  rw [hasFilters]
  simp only [Bool.or_eq_true]
  constructor
  · rintro (((h1 | h2) | h3) | h4)
    · left
      rw [compiledFilters] at h1
      cases hs : bf.sectors with
      | none =>
        rw [hs] at h1
        simp [listTruthy] at h1
      | some l =>
        rw [hs] at h1
        refine ⟨l, rfl, ?_⟩
        simp [listTruthy] at h1
        intro hl
        rw [hl] at h1
        simp at h1
    · right
      left
      rw [compiledFilters] at h2
      simp at h2
      intro hc
      rw [hc] at h2
      simp at h2
    · right
      right
      left
      rw [compiledFilters] at h3
      simp at h3
      intro hc
      rw [hc] at h3
      simp at h3
    · right
      right
      right
      rw [compiledFilters] at h4
      simp only [listTruthy] at h4
      by_cases he : (normalizeExclude (bf.exclude_tickers.getD [])).isEmpty
      · rw [if_pos he] at h4
        simp at h4
      · intro hc
        rw [hc] at he
        simp at he
  · rintro (⟨l, hl, hne⟩ | h2 | h3 | h4)
    · left
      left
      left
      rw [compiledFilters]
      simp only
      rw [hl]
      simp [listTruthy, hne]
    · left
      left
      right
      rw [compiledFilters]
      simp only
      cases hm : bf.mcap_min with
      | undef => exact absurd hm h2
      | null => rfl
      | num q => rfl
    · left
      right
      rw [compiledFilters]
      simp only
      cases hm : bf.mcap_max with
      | undef => exact absurd hm h3
      | null => rfl
      | num q => rfl
    · right
      rw [compiledFilters]
      simp only [listTruthy]
      rw [if_neg]
      · simp
        exact h4
      · simp
        exact h4

/-- C1: the compiled request carries a filters key exactly when one of the
sub-filters is set (sectors non-empty, a defined market-cap bound, or a
non-empty normalized exclusion list), and a present filters object never
has every sub-field absent. -/
theorem filters_inclusion (values : FormValues) :
    (((submit values).filters).isSome = true ↔
      ((∃ l, (values.filters.getD emptyRawFilters).sectors = some l ∧ l ≠ []) ∨
        (values.filters.getD emptyRawFilters).mcap_min ≠ JNum.undef ∨
        (values.filters.getD emptyRawFilters).mcap_max ≠ JNum.undef ∨
        normalizeExclude
          ((values.filters.getD emptyRawFilters).exclude_tickers.getD []) ≠ [])) ∧
    (∀ f, (submit values).filters = some f →
      ¬(f.sectors = none ∧ f.mcap_min = JNum.undef ∧ f.mcap_max = JNum.undef ∧
        f.exclude_tickers = none)) := by
  have hfil : (submit values).filters
      = (if hasFilters (compiledFilters (values.filters.getD emptyRawFilters))
         then some (compiledFilters (values.filters.getD emptyRawFilters))
         else none) := rfl
  constructor
  · rw [hfil]
    rw [← hasFilters_iff (values.filters.getD emptyRawFilters)]
    cases h : hasFilters (compiledFilters (values.filters.getD emptyRawFilters)) with
    | true => simp
    | false => simp
  · intro f hf hcontra
    rw [hfil] at hf
    cases h : hasFilters (compiledFilters (values.filters.getD emptyRawFilters)) with
    | false =>
      rw [h] at hf
      simp at hf
    | true =>
      rw [h] at hf
      simp only [if_pos] at hf
      rcases Option.some.inj hf with rfl
      rw [hasFilters] at h
      rcases hcontra with ⟨h1, h2, h3, h4⟩
      rw [h1, h2, h3, h4] at h
      simp [listTruthy] at h

/-- Witness for C1: a snapshot whose only filter is one selected sector
compiles to a request with a present filters key. -/
theorem filters_inclusion_witness :
    ((submit { defaultFormValues with
        filters := some { emptyRawFilters with
          sectors := some ["Information Technology"] } }).filters).isSome = true :=
  (filters_inclusion { defaultFormValues with
      filters := some { emptyRawFilters with
        sectors := some ["Information Technology"] } }).1.mpr
    (Or.inl ⟨["Information Technology"], rfl, by simp⟩)

/-- The fixed (section, label) order of the Selection Row builder. -/
def selectionRowOrder : List (String × String) :=
  [("Strategy", "Strategy"), ("Strategy", "Start date"), ("Strategy", "End date"),
   ("Strategy", "Initial capital"), ("Strategy", "Fee (bps)"),
   ("Strategy", "Hold days"), ("Strategy", "Stop loss (%)"),
   ("Strategy", "Take profit (%)"),
   ("Universe Filters", "Sectors"), ("Universe Filters", "Market cap min"),
   ("Universe Filters", "Market cap max"), ("Universe Filters", "Exclude tickers"),
   ("RSI", "Enabled"), ("RSI", "Lookback"), ("RSI", "Mode"), ("RSI", "Threshold"),
   ("MACD", "Enabled"), ("MACD", "Fast"), ("MACD", "Slow"), ("MACD", "Signal"),
   ("MACD", "Rule"),
   ("OBV", "Enabled"), ("OBV", "Rule"),
   ("EMA", "Enabled"), ("EMA", "Short"), ("EMA", "Long"),
   ("ADX", "Enabled"), ("ADX", "Lookback"), ("ADX", "Min ADX"),
   ("Aroon", "Enabled"), ("Aroon", "Lookback"), ("Aroon", "Aroon up"),
   ("Aroon", "Aroon down"),
   ("Stochastic", "Enabled"), ("Stochastic", "%K"), ("Stochastic", "%D"),
   ("Stochastic", "Threshold"), ("Stochastic", "Rule"),
   ("Signal Rules", "Policy"), ("Signal Rules", "k"), ("Signal Rules", "Max horizon"),
   ("Signal Rules", "Histogram horizon"), ("Signal Rules", "Histogram bins")]

/-- An input mapping with every field missing (undefined throughout). -/
def blankSelectionValues : SelectionValues :=
  { strategy := SVal.undef, date := none, capital := SVal.undef,
    fee_bps := SVal.undef, hold_days := SVal.undef, stop_loss_pct := SVal.undef,
    take_profit_pct := SVal.undef, filters := none, enable_rsi := none,
    rsi_n := SVal.undef, rsi_rule := none, use_macd := none,
    macd_fast := SVal.undef, macd_slow := SVal.undef, macd_signal := SVal.undef,
    macd_rule := SVal.undef, use_obv := none, obv_rule := SVal.undef,
    use_ema := none, ema_short := SVal.undef, ema_long := SVal.undef,
    use_adx := none, adx_n := SVal.undef, adx_min := SVal.undef,
    use_aroon := none, aroon_n := SVal.undef, aroon_up := SVal.undef,
    aroon_down := SVal.undef, use_stoch := none, stoch_k := SVal.undef,
    stoch_d := SVal.undef, stoch_threshold := SVal.undef,
    stoch_rule := SVal.undef, policy := SVal.undef, k := SVal.undef,
    max_horizon := SVal.undef, hist_horizon := SVal.undef,
    hist_bins := SVal.undef }

/-- Counterexample for C10 as stated: on the all-missing input mapping the
builder renders the missing RSI enable flag as Disabled (through
formatBool), not as the em-dash sentinel, so the every-missing-value
clause of the claim fails. -/
theorem selection_rows_sentinel_cex :
    (buildSelectionRows blankSelectionValues)[12]?
      = some ("RSI", "Enabled", "Disabled") ∧
    "Disabled" ≠ "—" := by
  constructor
  · rfl
  · decide

/-- The pre-rendered enable flags pass through the row renderer untouched
because formatBool never yields the empty string. -/
theorem formatValue_formatBool (b : Option Bool) :
    formatValue (SVal.str (formatBool b)) = formatBool b := by
  rcases b with _ | b
  · rfl
  · cases b <;> rfl

/-- C10 as amended: for every input mapping the builder returns exactly 43
rows in the fixed section-and-label order; every missing, null,
empty-string or zero-length-array value that reaches the row renderer
formatValue becomes the em-dash sentinel, but the seven per-indicator
Enabled rows pre-render their flag through formatBool, so a missing or
null enable flag renders Disabled (a present true flag renders Enabled);
the k row holds the rendered k value exactly when the policy is atleast_k
and the sentinel otherwise. -/
theorem selection_rows_amended (values : SelectionValues) :
    (buildSelectionRows values).length = 43 ∧
    (buildSelectionRows values).map (fun r => (r.1, r.2.1)) = selectionRowOrder ∧
    (formatValue SVal.undef = "—" ∧ formatValue SVal.null = "—" ∧
     formatValue (SVal.str "") = "—" ∧ formatValue (SVal.arr []) = "—") ∧
    (formatBool none = "Disabled" ∧ formatBool (some false) = "Disabled" ∧
     formatBool (some true) = "Enabled") ∧
    ((buildSelectionRows values)[12]?
        = some ("RSI", "Enabled", formatBool values.enable_rsi) ∧
     (buildSelectionRows values)[16]?
        = some ("MACD", "Enabled", formatBool values.use_macd) ∧
     (buildSelectionRows values)[21]?
        = some ("OBV", "Enabled", formatBool values.use_obv) ∧
     (buildSelectionRows values)[23]?
        = some ("EMA", "Enabled", formatBool values.use_ema) ∧
     (buildSelectionRows values)[26]?
        = some ("ADX", "Enabled", formatBool values.use_adx) ∧
     (buildSelectionRows values)[29]?
        = some ("Aroon", "Enabled", formatBool values.use_aroon) ∧
     (buildSelectionRows values)[33]?
        = some ("Stochastic", "Enabled", formatBool values.use_stoch)) ∧
    (buildSelectionRows values)[39]? =
      some ("Signal Rules", "k",
        if values.policy = SVal.str "atleast_k" then formatValue values.k else "—") := by
  refine ⟨rfl, rfl, ⟨rfl, rfl, rfl, rfl⟩, ⟨rfl, rfl, rfl⟩,
    ⟨?_, ?_, ?_, ?_, ?_, ?_, ?_⟩, ?_⟩
  · have h12 : (buildSelectionRows values)[12]? =
        some ("RSI", "Enabled", formatValue (SVal.str (formatBool values.enable_rsi))) := rfl
    rw [h12, formatValue_formatBool]
  · have h16 : (buildSelectionRows values)[16]? =
        some ("MACD", "Enabled", formatValue (SVal.str (formatBool values.use_macd))) := rfl
    rw [h16, formatValue_formatBool]
  · have h21 : (buildSelectionRows values)[21]? =
        some ("OBV", "Enabled", formatValue (SVal.str (formatBool values.use_obv))) := rfl
    rw [h21, formatValue_formatBool]
  · have h23 : (buildSelectionRows values)[23]? =
        some ("EMA", "Enabled", formatValue (SVal.str (formatBool values.use_ema))) := rfl
    rw [h23, formatValue_formatBool]
  · have h26 : (buildSelectionRows values)[26]? =
        some ("ADX", "Enabled", formatValue (SVal.str (formatBool values.use_adx))) := rfl
    rw [h26, formatValue_formatBool]
  · have h29 : (buildSelectionRows values)[29]? =
        some ("Aroon", "Enabled", formatValue (SVal.str (formatBool values.use_aroon))) := rfl
    rw [h29, formatValue_formatBool]
  · have h33 : (buildSelectionRows values)[33]? =
        some ("Stochastic", "Enabled", formatValue (SVal.str (formatBool values.use_stoch)))
        := rfl
    rw [h33, formatValue_formatBool]
  · have hk : (buildSelectionRows values)[39]? =
        some ("Signal Rules", "k",
          formatValue (if values.policy = SVal.str "atleast_k"
            then values.k else SVal.str "—")) := rfl
    rw [hk]
    by_cases hp : values.policy = SVal.str "atleast_k"
    · rw [if_pos hp, if_pos hp]
    · rw [if_neg hp, if_neg hp]
      rfl

/-- Counterexample for C3 as stated: with one data row the CSV text is the
header line plus the row with no trailing newline, so the "always ends
with a trailing newline" clause fails. -/
theorem csv_trailing_newline_cex :
    createCSVContent ["a"] [[CSVCell.str "x"]] = "a\nx" ∧
    endsWithNewline (createCSVContent ["a"] [[CSVCell.str "x"]]) = false := by
  constructor
  · rfl
  · rfl

/-- C3 as amended: quoting wraps exactly the fields containing a comma,
double quote or newline (with internal quotes doubled), null/undefined
fields render empty, the zero-row file is the header with a trailing
newline, and a file with data rows is the header line followed by the
newline-joined encoded rows with no extra trailing newline appended. -/
theorem csv_content_amended (columns : List String) (rows : List (List CSVCell))
    (s : String) :
    (rows = [] → createCSVContent columns rows
      = String.intercalate "," columns ++ "\n") ∧
    (rows ≠ [] → createCSVContent columns rows
      = String.intercalate "," columns ++ "\n"
        ++ String.intercalate "\n"
          (rows.map (fun row => String.intercalate "," (row.map encodeCell)))) ∧
    encodeCell CSVCell.nullv = "" ∧
    (needsQuote s = true →
      encodeCell (CSVCell.str s) = "\"" ++ escapeQuotes s ++ "\"") ∧
    (needsQuote s = false → encodeCell (CSVCell.str s) = s) ∧
    (escapeQuotes s).toList
      = s.toList.flatMap (fun c => if c = '"' then ['"', '"'] else [c]) := by
  refine ⟨?_, ?_, rfl, ?_, ?_, rfl⟩
  · intro h
    rw [h]
    rfl
  · intro h
    rw [createCSVContent]
    cases rows with
    | nil => exact absurd rfl h
    | cons r rs => rfl
  · intro h
    show encodedField s = _
    rw [encodedField, if_pos h]
  · intro h
    show encodedField s = s
    rw [encodedField, if_neg]
    rw [h]
    simp

/-- Witness for C3 as amended: the zero-row file keeps its trailing
newline and a comma-bearing field is quote-wrapped. -/
theorem csv_content_amended_witness :
    createCSVContent ["a"] ([] : List (List CSVCell))
      = String.intercalate "," ["a"] ++ "\n" ∧
    encodeCell (CSVCell.str "x,y") = "\"" ++ escapeQuotes "x,y" ++ "\"" :=
  ⟨(csv_content_amended ["a"] [] "x,y").1 rfl,
   (csv_content_amended ["a"] [] "x,y").2.2.2.1 (by decide)⟩

/-- The trades snapshot block of a composed report (the fourth entry of
the Data Snapshots section), or the empty string for any other outcome. -/
def reportTradesSnapshot (act : ExportAction) : String :=
  match act with
  | ExportAction.report doc => doc.dataSnapshots.getD 3 ""
  | _ => ""

/-- Counterexample for C6 as stated: on a zero-trade response the report
document's trades section is the collapsible CSV block around the
header-only trades CSV and never contains the text No data available. -/
theorem report_trades_no_data_cex :
    tradesCsvOf zeroTradesResponse
      = "symbol,enter_date,enter_price,exit_date,exit_price,pnl,ret\n" ∧
    reportTradesSnapshot
        (handleDownloadReport (some zeroTradesResponse) none none
          ChartRef.absent ChartRef.absent ChartRef.absent ChartRef.absent "ts")
      = csvSection "Trades (CSV)" (some (tradesCsvOf zeroTradesResponse)) ∧
    subOccurs "No data available.".toList
      (reportTradesSnapshot
        (handleDownloadReport (some zeroTradesResponse) none none
          ChartRef.absent ChartRef.absent ChartRef.absent ChartRef.absent "ts")).toList
      = false := by
  refine ⟨rfl, rfl, ?_⟩
  decide

/-- C6 as amended: with zero trades the trades CSV is exactly the header
row with its trailing newline; the report's trades section is the CSV
block around that header-only text and does not contain the text No data
available, which the report's table renderer emits only for an empty
table row set. -/
theorem report_trades_zero_amended (r : BacktestResponse)
    (h : r.trades = none ∨ r.trades = some []) :
    tradesCsvOf r
      = "symbol,enter_date,enter_price,exit_date,exit_price,pnl,ret\n" ∧
    (∀ cfg vals e d sg hg ts,
      reportTradesSnapshot (handleDownloadReport (some r) cfg vals e d sg hg ts)
        = csvSection "Trades (CSV)" (some (tradesCsvOf r))) ∧
    subOccurs "No data available.".toList
      (csvSection "Trades (CSV)" (some (tradesCsvOf r))).toList = false ∧
    (∀ headers, sectionTable [] headers = "<p>No data available.</p>") := by
  have htr : tradesCsvOf r
      = "symbol,enter_date,enter_price,exit_date,exit_price,pnl,ret\n" := by
    rcases h with h | h <;>
      · rw [tradesCsvOf, h]
        rfl
  refine ⟨htr, ?_, ?_, fun headers => rfl⟩
  · intro cfg vals e d sg hg ts
    rfl
  · rw [htr]
    decide

/-- Witness for C6 as amended, at the concrete zero-trade response. -/
theorem report_trades_zero_amended_witness :
    tradesCsvOf zeroTradesResponse
      = "symbol,enter_date,enter_price,exit_date,exit_price,pnl,ret\n" :=
  (report_trades_zero_amended zeroTradesResponse (Or.inr rfl)).1

/-- Counterexample for C7 as stated: the equity-CSV entry point invoked
before any response exists is a no-op but carries no user-facing warning. -/
theorem export_precondition_cex :
    isNoop (handleDownloadEquity none) = true ∧
    warned (handleDownloadEquity none) = false := by
  constructor
  · rfl
  · rfl

/-- C7 as amended: every export entry point invoked before any response
exists returns early without any derived-table or document work and
without crashing, but only the report download shows a user-facing
warning; the CSV and JSON exports return silently. -/
theorem export_precondition_amended (cfg : Option BacktestRequest)
    (vals : Option SelectionValues) (e d sg hg : ChartRef) (ts : String) :
    (isNoop (handleDownloadEquity none) = true ∧
     isNoop (handleDownloadDrawdown none) = true ∧
     isNoop (handleDownloadSignals none) = true ∧
     isNoop (handleDownloadMetrics none) = true ∧
     isNoop (handleDownloadTrades none) = true ∧
     isNoop (handleDownloadSummary none) = true ∧
     isNoop (handleDownloadHistogram none) = true ∧
     isNoop (handleDownloadIndicatorStats none) = true ∧
     isNoop (handleDownloadReport none cfg vals e d sg hg ts) = true) ∧
    (warned (handleDownloadEquity none) = false ∧
     warned (handleDownloadDrawdown none) = false ∧
     warned (handleDownloadSignals none) = false ∧
     warned (handleDownloadMetrics none) = false ∧
     warned (handleDownloadTrades none) = false ∧
     warned (handleDownloadSummary none) = false ∧
     warned (handleDownloadHistogram none) = false ∧
     warned (handleDownloadIndicatorStats none) = false) ∧
    warned (handleDownloadReport none cfg vals e d sg hg ts) = true := by
  exact ⟨⟨rfl, rfl, rfl, rfl, rfl, rfl, rfl, rfl, rfl⟩,
    ⟨rfl, rfl, rfl, rfl, rfl, rfl, rfl, rfl⟩, rfl⟩

/-- C8: report assembly with a response present always composes and
downloads a report document; each chart role's embedded image is exactly
the capture result of its own collaborator, an absent or failing
collaborator yields an absent image, and every non-chart part of the
document (timestamp, parameter summary, metrics, CSV snapshots, raw
payloads) is unchanged by any change to the chart collaborators. -/
theorem report_capture_isolation (r : BacktestResponse)
    (cfg : Option BacktestRequest) (vals : Option SelectionValues)
    (e d sg hg e2 d2 sg2 hg2 : ChartRef) (ts : String) :
    captureChart ChartRef.absent = none ∧
    captureChart ChartRef.failing = none ∧
    (reportDocOf (handleDownloadReport (some r) cfg vals e d sg hg ts)).isSome
      = true ∧
    (reportDocOf (handleDownloadReport (some r) cfg vals e d sg hg ts)).map
        ReportDoc.equityImage = some (captureChart e) ∧
    (reportDocOf (handleDownloadReport (some r) cfg vals e d sg hg ts)).map
        ReportDoc.drawdownImage = some (captureChart d) ∧
    (reportDocOf (handleDownloadReport (some r) cfg vals e d sg hg ts)).map
        ReportDoc.signalImage = some (captureChart sg) ∧
    (reportDocOf (handleDownloadReport (some r) cfg vals e d sg hg ts)).map
        ReportDoc.histogramImage = some (captureChart hg) ∧
    (reportDocOf (handleDownloadReport (some r) cfg vals e d sg hg ts)).map
        ReportDoc.timestamp
      = (reportDocOf (handleDownloadReport (some r) cfg vals e2 d2 sg2 hg2 ts)).map
        ReportDoc.timestamp ∧
    (reportDocOf (handleDownloadReport (some r) cfg vals e d sg hg ts)).map
        ReportDoc.parameterSummary
      = (reportDocOf (handleDownloadReport (some r) cfg vals e2 d2 sg2 hg2 ts)).map
        ReportDoc.parameterSummary ∧
    (reportDocOf (handleDownloadReport (some r) cfg vals e d sg hg ts)).map
        ReportDoc.metricsSection
      = (reportDocOf (handleDownloadReport (some r) cfg vals e2 d2 sg2 hg2 ts)).map
        ReportDoc.metricsSection ∧
    (reportDocOf (handleDownloadReport (some r) cfg vals e d sg hg ts)).map
        ReportDoc.dataSnapshots
      = (reportDocOf (handleDownloadReport (some r) cfg vals e2 d2 sg2 hg2 ts)).map
        ReportDoc.dataSnapshots ∧
    (reportDocOf (handleDownloadReport (some r) cfg vals e d sg hg ts)).map
        ReportDoc.rawRequest
      = (reportDocOf (handleDownloadReport (some r) cfg vals e2 d2 sg2 hg2 ts)).map
        ReportDoc.rawRequest ∧
    (reportDocOf (handleDownloadReport (some r) cfg vals e d sg hg ts)).map
        ReportDoc.rawResponse
      = (reportDocOf (handleDownloadReport (some r) cfg vals e2 d2 sg2 hg2 ts)).map
        ReportDoc.rawResponse := by
  exact ⟨rfl, rfl, rfl, rfl, rfl, rfl, rfl, rfl, rfl, rfl, rfl, rfl, rfl⟩
